import Mathlib

/-!
# GhostMate Mutual-State Engine — verification development

Shallow embedding of the favorites/connections engine
(`src/lib/favoritesService.ts`), the PKT day-clock utilities
(`src/lib/dailyId.ts`), and the story review workflow
(`src/lib/storiesService.ts`).

Conventions of the embedding:
* Timestamps are `Int` epoch milliseconds (JS `Date.getTime()` /
  `Date.now()`).
* Day Keys: the source formats PKT-local dates as `YYYY-MM-DD` strings.
  The formatting is an injective encoding of the PKT day number
  `(now + pktOffsetMs) / dayMs` (floor division), so Day Keys are
  modelled as that `Int` day index; `getTodayDateString` becomes
  `dayKeyPKT` and `getYesterdayDate` becomes `yesterdayKeyPKT`.
* Firestore documents become records, collections become association
  lists keyed by document id, and `transaction.set` / `setDoc` become
  `mapSet` (replace-or-insert).
* Wall-clock reads (`Date.now()`), the external daily-id resolution
  (`getUserIdFromDailyId`) and the random token draw
  (`generateConnectionToken`) are supplied by an `Env` record; one
  engine call observes a single instant, matching a fast transaction.
* Fire-and-forget chat notifications (`sendSystemMessage`) happen after
  the transaction, never touch the favorites/connections state and are
  not part of the returned result, so they are not modelled.
-/

namespace GhostMate

/-! ## Day clock (src/lib/dailyId.ts), fixed PKT = UTC+5 offset -/

/-- PKT offset in milliseconds (UTC+5), from `getPakistanTime`. -/
def pktOffsetMs : Int := 5 * 60 * 60 * 1000

/-- One calendar day in milliseconds. -/
def dayMs : Int := 24 * 60 * 60 * 1000

/-- PKT day index of an instant: the Day Key `YYYY-MM-DD` string the
source produces is an injective encoding of this floor quotient. -/
def dayKeyPKT (now : Int) : Int := (now + pktOffsetMs) / dayMs

/-- `getTodayMidnight`: start (UTC instant) of the current PKT day. -/
def todayMidnightPKT (now : Int) : Int := now - (now + pktOffsetMs) % dayMs

/-- `getNextMidnight`: start of the next PKT day. -/
def nextMidnightPKT (now : Int) : Int := todayMidnightPKT now + dayMs

/-- `getYesterdayDate`: Day Key of the PKT time one day earlier. -/
def yesterdayKeyPKT (now : Int) : Int := dayKeyPKT (now - dayMs)

theorem yesterdayKeyPKT_eq (now : Int) :
    yesterdayKeyPKT now = dayKeyPKT now - 1 := by
  unfold yesterdayKeyPKT dayKeyPKT
  have h : now - dayMs + pktOffsetMs = now + pktOffsetMs + (-1) * dayMs := by ring
  rw [h, Int.add_mul_ediv_right _ _ (by unfold dayMs; omega)]
  omega

/-! ## Association-list model of Firestore collections -/

/-- Document lookup by id (`getDoc` / `transaction.get`). -/
def mapGet {α : Type} (m : List (String × α)) (k : String) : Option α :=
  (m.find? (fun p => p.1 == k)).map (fun p => p.2)

/-- Replace-or-insert write (`setDoc` / `transaction.set`). -/
def mapSet {α : Type} (m : List (String × α)) (k : String) (v : α) :
    List (String × α) :=
  (k, v) :: m.filter (fun p => p.1 != k)

/-- Key deletion (JS `delete obj[k]`). -/
def mapErase {α : Type} (m : List (String × α)) (k : String) :
    List (String × α) :=
  m.filter (fun p => p.1 != k)

@[simp] theorem mapGet_nil {α : Type} (k : String) :
    mapGet ([] : List (String × α)) k = none := rfl

@[simp] theorem mapGet_cons {α : Type} (k k' : String) (v : α)
    (m : List (String × α)) :
    mapGet ((k', v) :: m) k = if k' = k then some v else mapGet m k := by
  by_cases h : k' = k
  · unfold mapGet
    rw [List.find?_cons_of_pos _ (by simpa using h)]
    simp [h]
  · unfold mapGet
    rw [List.find?_cons_of_neg _ (by simpa using h)]
    simp [mapGet, h]

@[simp] theorem mapGet_mapSet_self {α : Type} (m : List (String × α))
    (k : String) (v : α) : mapGet (mapSet m k v) k = some v := by
  simp [mapSet]

theorem mapGet_filter_ne {α : Type} (m : List (String × α)) (k k' : String)
    (h : k ≠ k') :
    mapGet (m.filter (fun p => p.1 != k)) k' = mapGet m k' := by
  induction m with
  | nil => rfl
  | cons p m ih =>
    obtain ⟨pk, pv⟩ := p
    rw [List.filter_cons]
    by_cases hp : pk = k
    · subst hp
      have hb : (((pk, pv) : String × α).1 != pk) = false := by simp
      rw [hb]
      simp only [Bool.false_eq_true, if_false]
      rw [ih, mapGet_cons, if_neg h]
    · have hb : (((pk, pv) : String × α).1 != k) = true := by simpa using hp
      rw [hb]
      simp only [if_true]
      rw [mapGet_cons, mapGet_cons, ih]

theorem mapGet_mapSet_ne {α : Type} (m : List (String × α))
    (k k' : String) (v : α) (h : k ≠ k') :
    mapGet (mapSet m k v) k' = mapGet m k' := by
  unfold mapSet
  rw [mapGet_cons, if_neg h]
  exact mapGet_filter_ne m k k' h

/-! ## Data model (src/types/favorites.ts) -/

/-- One user favoriting one daily id (`Favorite`). -/
structure Favorite where
  userId : String
  favoritedDailyId : String
  createdAt : Int
  userDailyId : String
deriving Repr, DecidableEq

/-- Per-user favorites document (`UserFavorites`); the
`Record<string, Favorite>` map keyed by favorited daily id becomes an
association list. -/
structure UserFavorites where
  userId : String
  favorites : List (String × Favorite)
  updatedAt : Int
deriving Repr, DecidableEq

/-- Connection status (`'active' | 'expired' | 'broken'`). -/
inductive ConnStatus where
  | active
  | expired
  | broken
deriving Repr, DecidableEq

/-- Mutual connection document (`Connection`); `lastStreakDate` is the
PKT Day Key, modelled as the day index (see header). -/
structure Connection where
  connectionToken : String
  userIds : String × String
  createdAt : Int
  lastMutualFavoriteAt : Int
  streakCount : Int
  isLocked : Bool
  lockExpiresAt : Option Int
  lastStreakDate : Int
  status : ConnStatus
deriving Repr, DecidableEq

/-- `CreateFavoriteInput`. -/
structure CreateFavoriteInput where
  userId : String
  userDailyId : String
  favoritedDailyId : String
deriving Repr, DecidableEq

/-- `FavoriteActionResult`. The TS interface declares `success`,
`message?`, `mutualConnection?`, `connectionToken?`, `isLocked?`,
`lockExpiresAt?`; `addFavorite` additionally reads `result.streakCount`
after the transaction, a property no code path ever writes, so it is
modelled as an `Option` that stays `none`. -/
structure FavoriteActionResult where
  success : Bool
  message : String
  mutualConnection : Option Bool := none
  connectionToken : Option String := none
  isLocked : Option Bool := none
  lockExpiresAt : Option Int := none
  streakCount : Option Int := none
deriving Repr, DecidableEq

/-- The Firestore state touched by the favorites service:
`userFavorites/{userId}` and `connections/{connectionId}`. -/
structure FirestoreDB where
  userFavorites : List (String × UserFavorites)
  connections : List (String × Connection)
deriving Repr, DecidableEq

/-- External collaborators and wall clock observed by one service call:
`Date.now()`, `getUserIdFromDailyId`, and the random outcome of
`generateConnectionToken`. -/
structure Env where
  now : Int
  resolveDailyId : String → Option String
  freshToken : String

/-! ## Favorites service (src/lib/favoritesService.ts) -/

/-- Kernel-reducible decidability for the lexicographic order on
`String` (the library instance goes through `String.ltb`, which the
kernel cannot unfold), so that concrete witnesses evaluate by
`decide`. -/
instance (priority := 2000) stringLtDec (a b : String) : Decidable (a < b) :=
  decidable_of_iff _ String.lt_iff_toList_lt.symm

/-- `generateConnectionId`: sorted pair of user ids joined by `_`
(JS `[u1, u2].sort()` is lexicographic on 2-element string arrays). -/
def sortPair (a b : String) : String × String :=
  if b < a then (b, a) else (a, b)

def generateConnectionId (userId1 userId2 : String) : String :=
  (sortPair userId1 userId2).1 ++ "_" ++ (sortPair userId1 userId2).2

/-- `isConnectionLocked`: JS checks
`!connection.isLocked || !connection.lockExpiresAt` (a `0` timestamp is
falsy) and then `Date.now() < lockExpiresAt`. -/
def isConnectionLocked (now : Int) (c : Connection) : Bool :=
  match c.lockExpiresAt with
  | none => false
  | some t => c.isLocked && (t != 0) && decide (now < t)

/-- Output record of `createMutualConnection`. -/
structure CreateOut where
  connectionToken : String
  lockExpiresAt : Int
  streakCount : Int
deriving Repr, DecidableEq

/-- `createMutualConnection`: builds the fresh Connection document and
writes it at the deterministic pair id inside the transaction. -/
def createMutualConnection (env : Env) (userId1 userId2 : String)
    (db : FirestoreDB) : CreateOut × FirestoreDB :=
  let connectionId := generateConnectionId userId1 userId2
  let connectionToken := env.freshToken
  let now := env.now
  let lockExpiresAt := nextMidnightPKT now
  let today := dayKeyPKT now
  let newConnection : Connection :=
    { connectionToken := connectionToken
      userIds := sortPair userId1 userId2
      createdAt := now
      lastMutualFavoriteAt := now
      streakCount := 1
      isLocked := true
      lockExpiresAt := some lockExpiresAt
      lastStreakDate := today
      status := .active }
  (⟨connectionToken, lockExpiresAt, 1⟩,
   { db with connections := mapSet db.connections connectionId newConnection })

/-- Output record of `updateConnectionStreak`. -/
structure UpdateOut where
  connectionToken : String
  lockExpiresAt : Int
  streakCount : Int
  streakIncremented : Bool
deriving Repr, DecidableEq

/-- `updateConnectionStreak`: streak arithmetic and rewrite of the
existing Connection document (object spread keeps all other fields). -/
def updateConnectionStreak (env : Env) (userId1 userId2 : String)
    (existingConnection : Connection) (db : FirestoreDB) :
    UpdateOut × FirestoreDB :=
  let connectionId := generateConnectionId userId1 userId2
  let now := env.now
  let lockExpiresAt := nextMidnightPKT now
  let today := dayKeyPKT now
  let yesterday := yesterdayKeyPKT now
  let step : Int × Bool :=
    if existingConnection.lastStreakDate = yesterday then
      (existingConnection.streakCount + 1, true)
    else if existingConnection.lastStreakDate ≠ today then
      (1, false)
    else
      (existingConnection.streakCount, false)
  let updatedConnection : Connection :=
    { existingConnection with
      lastMutualFavoriteAt := now
      streakCount := step.1
      isLocked := true
      lockExpiresAt := some lockExpiresAt
      lastStreakDate := today
      status := .active }
  (⟨existingConnection.connectionToken, lockExpiresAt, step.1, step.2⟩,
   { db with connections := mapSet db.connections connectionId updatedConnection })

/-- The `runTransaction` body of `addFavorite`: reads, validation, and
writes, after the pre-transaction checks already resolved
`otherUserId`. -/
def addFavoriteTxn (env : Env) (db : FirestoreDB)
    (userId userDailyId favoritedDailyId otherUserId : String) :
    FavoriteActionResult × FirestoreDB :=
  let favoritesSnap := mapGet db.userFavorites userId
  let otherFavoritesSnap := mapGet db.userFavorites otherUserId
  let connectionId := generateConnectionId userId otherUserId
  let connectionSnap := mapGet db.connections connectionId
  let currentFavorites :=
    favoritesSnap.getD { userId := userId, favorites := [], updatedAt := env.now }
  if (mapGet currentFavorites.favorites favoritedDailyId).isSome then
    ({ success := false, message := "Already favorited this user" }, db)
  else
    let lockedNow := match connectionSnap with
      | some c => isConnectionLocked env.now c
      | none => false
    if lockedNow then
      ({ success := false
         message := "Connection is locked. Please wait for the 24-hour period to expire."
         isLocked := some true
         lockExpiresAt := connectionSnap.bind Connection.lockExpiresAt }, db)
    else
      let newFavorite : Favorite :=
        { userId := userId, favoritedDailyId := favoritedDailyId
          createdAt := env.now, userDailyId := userDailyId }
      let written : UserFavorites :=
        { currentFavorites with
          favorites := mapSet currentFavorites.favorites favoritedDailyId newFavorite
          updatedAt := env.now }
      let db1 := { db with userFavorites := mapSet db.userFavorites userId written }
      let mutualDetected := match otherFavoritesSnap with
        | some otherFavorites => (mapGet otherFavorites.favorites userDailyId).isSome
        | none => false
      if mutualDetected then
        match connectionSnap with
        | some existingConnection =>
          let r := updateConnectionStreak env userId otherUserId existingConnection db1
          ({ success := true
             message := "Mutual connection re-established!"
             mutualConnection := some true
             connectionToken := some r.1.connectionToken
             isLocked := some true
             lockExpiresAt := some r.1.lockExpiresAt }, r.2)
        | none =>
          let r := createMutualConnection env userId otherUserId db1
          ({ success := true
             message := "Mutual connection established! 🎉"
             mutualConnection := some true
             connectionToken := some r.1.connectionToken
             isLocked := some true
             lockExpiresAt := some r.1.lockExpiresAt }, r.2)
      else
        ({ success := true
           message := "Favorite added successfully"
           mutualConnection := some false }, db1)

/-- `addFavorite`: input validation, daily-id resolution and the
self-favorite UID check, then the transaction. -/
def addFavorite (env : Env) (db : FirestoreDB) (input : CreateFavoriteInput) :
    FavoriteActionResult × FirestoreDB :=
  if input.userId = "" ∨ input.userDailyId = "" ∨ input.favoritedDailyId = "" then
    ({ success := false, message := "Invalid input parameters" }, db)
  else if input.userDailyId = input.favoritedDailyId then
    ({ success := false, message := "Cannot favorite yourself" }, db)
  else
    match env.resolveDailyId input.favoritedDailyId with
    | none =>
      ({ success := false, message := "User not found or daily ID expired" }, db)
    | some otherUserId =>
      if input.userId = otherUserId then
        ({ success := false, message := "Cannot favorite yourself" }, db)
      else
        addFavoriteTxn env db input.userId input.userDailyId
          input.favoritedDailyId otherUserId

/-- The `runTransaction` body of `removeFavorite`. -/
def removeFavoriteTxn (env : Env) (db : FirestoreDB)
    (userId favoritedDailyId : String) :
    FavoriteActionResult × FirestoreDB :=
  match mapGet db.userFavorites userId with
  | none => ({ success := false, message := "No favorites found" }, db)
  | some favorites =>
    if (mapGet favorites.favorites favoritedDailyId).isSome then
      let written : UserFavorites :=
        { favorites with
          favorites := mapErase favorites.favorites favoritedDailyId
          updatedAt := env.now }
      ({ success := true, message := "Favorite removed successfully" },
       { db with userFavorites := mapSet db.userFavorites userId written })
    else
      ({ success := false, message := "Favorite not found" }, db)

/-- `removeFavorite`: validation, resolution, the pre-transaction lock
check against the existing Connection, then the transaction. -/
def removeFavorite (env : Env) (db : FirestoreDB)
    (userId favoritedDailyId : String) :
    FavoriteActionResult × FirestoreDB :=
  if userId = "" ∨ favoritedDailyId = "" then
    ({ success := false, message := "Invalid input parameters" }, db)
  else
    match env.resolveDailyId favoritedDailyId with
    | none =>
      ({ success := false, message := "User not found or daily ID expired" }, db)
    | some otherUserId =>
      let existingConnection :=
        mapGet db.connections (generateConnectionId userId otherUserId)
      let lockedNow := match existingConnection with
        | some c => isConnectionLocked env.now c
        | none => false
      if lockedNow then
        ({ success := false
           message := "Connection is locked until midnight"
           isLocked := some true
           lockExpiresAt := existingConnection.bind Connection.lockExpiresAt }, db)
      else
        removeFavoriteTxn env db userId favoritedDailyId

/-! ## Stories data model (src/types/highlights.ts) -/

/-- `StoryStatus = 'pending' | 'approved' | 'rejected'`. -/
inductive StoryStatus where
  | pending
  | approved
  | rejected
deriving Repr, DecidableEq

/-- The admin-only `metadata` block of a queued story. -/
structure StoryMetadata where
  user1Id : String
  user2Id : String
  user1DailyIdAtTime : String
  user2DailyIdAtTime : String
  senderDailyId : String
  bothHighlightedAt : Int
deriving Repr, DecidableEq

/-- `QueuedStory` document (`queuedStories/{storyId}`). -/
structure QueuedStory where
  storyId : String
  messageText : String
  originalTimestamp : Int
  queuedAt : Int
  chatId : String
  status : StoryStatus
  anonymized : Bool
  locked : Bool
  lockExpiresAt : Int
  reviewedAt : Option Int := none
  reviewedBy : Option String := none
  rejectionReason : Option String := none
  metadata : StoryMetadata
deriving Repr, DecidableEq

/-- The document `approveStory` writes into
`approvedStories/{storyId}`: the fields of the object literal in the
source (message text, approval stamp and expiry, plus the queued
story's metadata extended with `originalQueuedAt`). -/
structure ApprovedStoryDoc where
  storyId : String
  messageText : String
  approvedAt : Int
  approvedBy : String
  expiresAt : Int
  metadata : StoryMetadata
  originalQueuedAt : Int
deriving Repr, DecidableEq

/-- The Firestore state touched by the stories service. -/
structure StoriesDB where
  queuedStories : List (String × QueuedStory)
  approvedStories : List (String × ApprovedStoryDoc)
deriving Repr, DecidableEq

/-! ## Stories service (src/lib/storiesService.ts) -/

/-- `getQueuedStory`: document read; the source overwrites the
`storyId` field with the document id. -/
def getQueuedStory (db : StoriesDB) (storyId : String) : Option QueuedStory :=
  (mapGet db.queuedStories storyId).map (fun q => { q with storyId := storyId })

/-- `getExpiry24Hours`: `now.setHours(now.getHours() + 24)` — a rolling
24-hour window from the moment of approval. -/
def getExpiry24Hours (now : Int) : Int := now + dayMs

/-- `approveStory`: lock guard, copy into `approvedStories`, then mark
the queued story approved. `serverTimestamp()` is the call instant. -/
def approveStory (now : Int) (db : StoriesDB) (storyId adminId : String) :
    (Bool × String) × StoriesDB :=
  match getQueuedStory db storyId with
  | none => ((false, "Story not found"), db)
  | some queuedStory =>
    if queuedStory.locked ∧ now < queuedStory.lockExpiresAt then
      ((false, "Story is still locked. Wait until midnight PKT."), db)
    else
      let approvedStory : ApprovedStoryDoc :=
        { storyId := storyId
          messageText := queuedStory.messageText
          approvedAt := now
          approvedBy := adminId
          expiresAt := getExpiry24Hours now
          metadata := queuedStory.metadata
          originalQueuedAt := queuedStory.queuedAt }
      let updatedQueued : QueuedStory :=
        { queuedStory with
          status := .approved
          reviewedAt := some now
          reviewedBy := some adminId }
      ((true, "Story approved successfully"),
       { db with
         approvedStories := mapSet db.approvedStories storyId approvedStory
         queuedStories := mapSet db.queuedStories storyId updatedQueued })

/-- `rejectStory`: `updateDoc` with status `rejected`; Firestore throws
on a missing document, which the source surfaces as a failure result.
`reason || 'Not approved for public feed'` follows JS falsiness (an
empty string also falls back to the default). -/
def rejectStory (now : Int) (db : StoriesDB) (storyId adminId : String)
    (reason : Option String) : (Bool × String) × StoriesDB :=
  match mapGet db.queuedStories storyId with
  | none => ((false, "Failed to reject story"), db)
  | some queuedStory =>
    let finalReason := match reason with
      | some r => if r = "" then "Not approved for public feed" else r
      | none => "Not approved for public feed"
    let updatedQueued : QueuedStory :=
      { queuedStory with
        status := .rejected
        reviewedAt := some now
        reviewedBy := some adminId
        rejectionReason := some finalReason }
    ((true, "Story rejected"),
     { db with queuedStories := mapSet db.queuedStories storyId updatedQueued })

/-! ## Read-side helpers used in theorem statements -/

/-- The caller's ledger entry for a target daily id, as the transaction
reads it (absent user document means absent entry). -/
def callerFavoriteEntry (db : FirestoreDB) (userId favoritedDailyId : String) :
    Option Favorite :=
  match mapGet db.userFavorites userId with
  | some uf => mapGet uf.favorites favoritedDailyId
  | none => none

/-- Whether the pair's Connection exists and is currently locked, as
the validate phase of `addFavorite` computes it. -/
def pairConnectionLocked (e : Env) (db : FirestoreDB)
    (userId otherUserId : String) : Bool :=
  match mapGet db.connections (generateConnectionId userId otherUserId) with
  | some c => isConnectionLocked e.now c
  | none => false

/-! ## Concrete fixtures for witnesses and counterexamples -/

/-- Concrete environment: users `A`/`B` with daily ids
`11111111`/`22222222`, at an instant in 2001. -/
def wEnv : Env :=
  { now := 1000000000000
    resolveDailyId := fun d =>
      if d = "22222222" then some "B"
      else if d = "11111111" then some "A"
      else none
    freshToken := "TOK12345" }

/-- Same environment, observed well after the lock below expired. -/
def wEnvLate : Env := { wEnv with now := 3000000000000 }

/-- Environment in which the target daily id `22222222` resolves to the
caller `A` itself (a rotated id of the same account). -/
def wEnvSelf : Env :=
  { wEnv with resolveDailyId := fun d =>
      if d = "22222222" then some "A" else none }

/-- `A` has favorited daily id `22222222` (user `B`). -/
def wFavA : UserFavorites :=
  { userId := "A"
    favorites := [("22222222",
      { userId := "A", favoritedDailyId := "22222222", createdAt := 5
        userDailyId := "11111111" })]
    updatedAt := 5 }

/-- `B` has favorited daily id `11111111` (user `A`). -/
def wFavB : UserFavorites :=
  { userId := "B"
    favorites := [("11111111",
      { userId := "B", favoritedDailyId := "11111111", createdAt := 5
        userDailyId := "22222222" })]
    updatedAt := 5 }

/-- A Connection between `A` and `B` whose lock is active at
`wEnv.now`. -/
def wConnLocked : Connection :=
  { connectionToken := "T", userIds := ("A", "B"), createdAt := 5
    lastMutualFavoriteAt := 5, streakCount := 3, isLocked := true
    lockExpiresAt := some 2000000000000, lastStreakDate := 11573
    status := .active }

/-- The same Connection with its lock long expired. -/
def wConnExpired : Connection := { wConnLocked with lockExpiresAt := some 5 }

/-- `A` holds a favorite and the pair's Connection is locked. -/
def wDbLocked : FirestoreDB :=
  { userFavorites := [("A", wFavA)], connections := [("A_B", wConnLocked)] }

/-- The pair's Connection is locked but the caller `A` has no ledger
entry at all. -/
def wDbNoEntryLocked : FirestoreDB :=
  { userFavorites := [], connections := [("A_B", wConnLocked)] }

/-- Completely empty store. -/
def wDbFree : FirestoreDB := { userFavorites := [], connections := [] }

/-- `B` has already favorited `A`, and the pair's existing Connection
is unlocked: `A`'s add re-establishes mutual state. -/
def wDbMutualReady : FirestoreDB :=
  { userFavorites := [("B", wFavB)], connections := [("A_B", wConnExpired)] }

/-- Admin-only metadata fixture. -/
def wMeta : StoryMetadata :=
  { user1Id := "A", user2Id := "B", user1DailyIdAtTime := "11111111"
    user2DailyIdAtTime := "22222222", senderDailyId := "11111111"
    bothHighlightedAt := 0 }

/-- A pending queued story whose review lock is active at time
`1000000000000`. -/
def wQueuedLocked : QueuedStory :=
  { storyId := "s1", messageText := "hello", originalTimestamp := 1
    queuedAt := 2, chatId := "c", status := .pending, anonymized := true
    locked := true, lockExpiresAt := 2000000000000, metadata := wMeta }

/-- A story already reviewed and rejected, with its lock expired. -/
def wQueuedRejected : QueuedStory :=
  { storyId := "s1", messageText := "hello", originalTimestamp := 1
    queuedAt := 2, chatId := "c", status := .rejected, anonymized := true
    locked := false, lockExpiresAt := 5, metadata := wMeta }

/-- Stories store holding the locked pending story. -/
def wStoriesLocked : StoriesDB :=
  { queuedStories := [("s1", wQueuedLocked)], approvedStories := [] }

/-- Stories store holding the rejected story. -/
def wStoriesRejected : StoriesDB :=
  { queuedStories := [("s1", wQueuedRejected)], approvedStories := [] }

/-! ## Helper lemmas -/

theorem sortPair_comm (a b : String) : sortPair a b = sortPair b a := by
  unfold sortPair
  rcases lt_trichotomy a b with h | h | h
  · rw [if_neg (lt_asymm h), if_pos h]
  · subst h; rfl
  · rw [if_pos h, if_neg (lt_asymm h)]

theorem generateConnectionId_comm (a b : String) :
    generateConnectionId a b = generateConnectionId b a := by
  unfold generateConnectionId
  rw [sortPair_comm]

/-! ## Claims -/

/-- C1: starting from an empty store, `addFavorite(A→B)` then
`addFavorite(B→A)`, or the same two calls in the reverse order, produce
exactly one Connection document, stored at the order-independent id
`generateConnectionId A B`, with `userIds` the sorted pair,
`streakCount = 1` and `isLocked = true`; both orders produce the same
document. -/
theorem c1_mutual_add_symmetric (e : Env) (A B dA dB : String)
    (hA : A ≠ "") (hB : B ≠ "") (hdA : dA ≠ "") (hdB : dB ≠ "")
    (hAB : A ≠ B) (hd : dA ≠ dB)
    (hrB : e.resolveDailyId dB = some B) (hrA : e.resolveDailyId dA = some A) :
    ∃ c : Connection,
      (addFavorite e (addFavorite e ⟨[], []⟩ ⟨A, dA, dB⟩).2 ⟨B, dB, dA⟩).2.connections
        = [(generateConnectionId A B, c)] ∧
      (addFavorite e (addFavorite e ⟨[], []⟩ ⟨B, dB, dA⟩).2 ⟨A, dA, dB⟩).2.connections
        = [(generateConnectionId A B, c)] ∧
      generateConnectionId A B = generateConnectionId B A ∧
      c.userIds = sortPair A B ∧ c.streakCount = 1 ∧ c.isLocked = true := by
  have hBA : B ≠ A := Ne.symm hAB
  have hd' : dB ≠ dA := Ne.symm hd
  refine ⟨{ connectionToken := e.freshToken, userIds := sortPair A B,
            createdAt := e.now, lastMutualFavoriteAt := e.now, streakCount := 1,
            isLocked := true, lockExpiresAt := some (nextMidnightPKT e.now),
            lastStreakDate := dayKeyPKT e.now, status := .active },
          ?_, ?_, generateConnectionId_comm A B, rfl, rfl, rfl⟩
  · simp [addFavorite, addFavoriteTxn, createMutualConnection, mapSet,
      isConnectionLocked, hA, hB, hdA, hdB, hAB, hBA, hd, hd', hrA, hrB,
      generateConnectionId_comm B A, sortPair_comm B A]
  · simp [addFavorite, addFavoriteTxn, createMutualConnection, mapSet,
      isConnectionLocked, hA, hB, hdA, hdB, hAB, hBA, hd, hd', hrA, hrB]

/-- Witness for C1 at the concrete users and daily ids of `wEnv`. -/
theorem c1_mutual_add_symmetric_witness :
    ∃ c : Connection,
      (addFavorite wEnv (addFavorite wEnv ⟨[], []⟩ ⟨"A", "11111111", "22222222"⟩).2
          ⟨"B", "22222222", "11111111"⟩).2.connections
        = [(generateConnectionId "A" "B", c)] ∧
      (addFavorite wEnv (addFavorite wEnv ⟨[], []⟩ ⟨"B", "22222222", "11111111"⟩).2
          ⟨"A", "11111111", "22222222"⟩).2.connections
        = [(generateConnectionId "A" "B", c)] ∧
      generateConnectionId "A" "B" = generateConnectionId "B" "A" ∧
      c.userIds = sortPair "A" "B" ∧ c.streakCount = 1 ∧ c.isLocked = true :=
  c1_mutual_add_symmetric wEnv "A" "B" "11111111" "22222222"
    (by decide) (by decide) (by decide) (by decide) (by decide) (by decide)
    (by decide) (by decide)

/-- C2: the streak written on a mutual-favorite event over an existing
Connection follows the StreakCalculator contract — unchanged when
`lastStreakDate` is today's Day Key, incremented when it is yesterday's
(today minus one calendar day), reset to 1 otherwise — and
`lastStreakDate` is set to today in all three cases. -/
theorem c2_streak_calculation (e : Env) (u1 u2 : String) (c : Connection)
    (db : FirestoreDB) :
    (updateConnectionStreak e u1 u2 c db).1.streakCount =
      (if c.lastStreakDate = dayKeyPKT e.now then c.streakCount
       else if c.lastStreakDate = yesterdayKeyPKT e.now then c.streakCount + 1
       else 1) ∧
    ∃ c' : Connection,
      mapGet (updateConnectionStreak e u1 u2 c db).2.connections
          (generateConnectionId u1 u2) = some c' ∧
      c'.streakCount = (updateConnectionStreak e u1 u2 c db).1.streakCount ∧
      c'.lastStreakDate = dayKeyPKT e.now := by
  have hne : yesterdayKeyPKT e.now ≠ dayKeyPKT e.now := by
    rw [yesterdayKeyPKT_eq]; omega
  constructor
  · by_cases hT : c.lastStreakDate = dayKeyPKT e.now
    · have hY : c.lastStreakDate ≠ yesterdayKeyPKT e.now := by
        rw [hT]; exact Ne.symm hne
      simp [updateConnectionStreak, hT, hY, Ne.symm hne]
    · by_cases hY : c.lastStreakDate = yesterdayKeyPKT e.now
      · simp [updateConnectionStreak, hT, hY, hne]
      · simp [updateConnectionStreak, hT, hY]
  · simp only [updateConnectionStreak]
    exact ⟨_, mapGet_mapSet_self _ _ _, rfl, rfl⟩

/-- C3: while a Connection's lock is active (`isLocked` set and
`lockExpiresAt` strictly in the future), `removeFavorite` by either
participant fails with a locked result carrying that `lockExpiresAt`;
once now is past `lockExpiresAt` the same call on an existing favorite
succeeds; the lock value stored by the mutual paths is
`nextMidnightPKT` of the instant the lock was set, which is exactly the
next PKT-midnight day boundary (a multiple of a day in PKT, strictly
after now, at most one day ahead) rather than a fixed 24h window. -/
theorem c3_locked_remove :
    (∀ (e : Env) (db : FirestoreDB) (userId favoritedDailyId otherUserId : String)
        (c : Connection) (t : Int),
      userId ≠ "" → favoritedDailyId ≠ "" →
      e.resolveDailyId favoritedDailyId = some otherUserId →
      mapGet db.connections (generateConnectionId userId otherUserId) = some c →
      c.isLocked = true → c.lockExpiresAt = some t → e.now < t → 0 ≤ e.now →
      removeFavorite e db userId favoritedDailyId =
        ({ success := false, message := "Connection is locked until midnight",
           isLocked := some true, lockExpiresAt := some t }, db)) ∧
    (∀ (e : Env) (db : FirestoreDB) (userId favoritedDailyId otherUserId : String)
        (c : Connection) (t : Int) (uf : UserFavorites),
      userId ≠ "" → favoritedDailyId ≠ "" →
      e.resolveDailyId favoritedDailyId = some otherUserId →
      mapGet db.connections (generateConnectionId userId otherUserId) = some c →
      c.lockExpiresAt = some t → t < e.now →
      mapGet db.userFavorites userId = some uf →
      (mapGet uf.favorites favoritedDailyId).isSome = true →
      (removeFavorite e db userId favoritedDailyId).1.success = true) ∧
    (∀ (e : Env) (u1 u2 : String) (db : FirestoreDB) (c0 : Connection),
      (∃ c, mapGet (createMutualConnection e u1 u2 db).2.connections
              (generateConnectionId u1 u2) = some c ∧
            c.lockExpiresAt = some (nextMidnightPKT e.now)) ∧
      (∃ c, mapGet (updateConnectionStreak e u1 u2 c0 db).2.connections
              (generateConnectionId u1 u2) = some c ∧
            c.lockExpiresAt = some (nextMidnightPKT e.now))) ∧
    (∀ now : Int,
      (nextMidnightPKT now + pktOffsetMs) % dayMs = 0 ∧
      now < nextMidnightPKT now ∧ nextMidnightPKT now ≤ now + dayMs) := by
  refine ⟨?_, ?_, ?_, ?_⟩
  · intro e db userId favoritedDailyId otherUserId c t h1 h2 hres hconn hlock ht hnow h0
    have ht0 : (t != 0) = true := by
      have : t ≠ 0 := by omega
      simpa using this
    have hlt : decide (e.now < t) = true := by simpa using hnow
    simp [removeFavorite, h1, h2, hres, hconn, isConnectionLocked, hlock, ht,
      ht0, hlt]
  · intro e db userId favoritedDailyId otherUserId c t uf h1 h2 hres hconn ht
      hnow huf hfav
    have hlt : decide (e.now < t) = false := by
      simp only [decide_eq_false_iff_not]
      omega
    simp [removeFavorite, removeFavoriteTxn, h1, h2, hres, hconn,
      isConnectionLocked, ht, hlt, huf, hfav]
  · intro e u1 u2 db c0
    constructor
    · simp only [createMutualConnection]
      exact ⟨_, mapGet_mapSet_self _ _ _, rfl⟩
    · simp only [updateConnectionStreak]
      exact ⟨_, mapGet_mapSet_self _ _ _, rfl⟩
  · intro now
    unfold nextMidnightPKT todayMidnightPKT pktOffsetMs dayMs
    omega

/-- Witness for C3: the locked Connection blocks `A`'s removal and
carries its `lockExpiresAt`; after expiry the same call succeeds; a
freshly created Connection locks until the next PKT midnight, which is
a PKT day boundary. -/
theorem c3_locked_remove_witness :
    removeFavorite wEnv wDbLocked "A" "22222222" =
      ({ success := false, message := "Connection is locked until midnight",
         isLocked := some true, lockExpiresAt := some 2000000000000 }, wDbLocked) ∧
    (removeFavorite wEnvLate wDbLocked "A" "22222222").1.success = true ∧
    (∃ c, mapGet (createMutualConnection wEnv "A" "B" wDbFree).2.connections
            (generateConnectionId "A" "B") = some c ∧
          c.lockExpiresAt = some (nextMidnightPKT wEnv.now)) ∧
    (nextMidnightPKT 1000000000000 + pktOffsetMs) % dayMs = 0 :=
  ⟨c3_locked_remove.1 wEnv wDbLocked "A" "22222222" "B" wConnLocked
      2000000000000 (by decide) (by decide) (by decide) (by decide) rfl rfl
      (by decide) (by decide),
   c3_locked_remove.2.1 wEnvLate wDbLocked "A" "22222222" "B" wConnLocked
      2000000000000 wFavA (by decide) (by decide) (by decide) (by decide) rfl
      (by decide) (by decide) (by decide),
   (c3_locked_remove.2.2.1 wEnv "A" "B" wDbFree wConnLocked).1,
   (c3_locked_remove.2.2.2 1000000000000).1⟩

/-- C4 counterexample: the caller `A` has no favorite entry at all and
the target resolves to the distinct user `B`, yet `addFavorite` fails
in the validate phase — with the locked-connection failure, not the
already-exists one — because the pair's Connection is locked. -/
theorem c4_add_second_validate_failure :
    mapGet wDbNoEntryLocked.userFavorites "A" = none ∧
    wEnv.resolveDailyId "22222222" = some "B" ∧
    (addFavorite wEnv wDbNoEntryLocked ⟨"A", "11111111", "22222222"⟩).1.success
      = false ∧
    (addFavorite wEnv wDbNoEntryLocked ⟨"A", "11111111", "22222222"⟩).1.message
      = "Connection is locked. Please wait for the 24-hour period to expire." ∧
    (addFavorite wEnv wDbNoEntryLocked ⟨"A", "11111111", "22222222"⟩).2
      = wDbNoEntryLocked := by
  decide

/-- C4 amended: past the preconditions, the validate phase of
`addFavorite` has exactly two failure cases — already-exists, returned
exactly when the caller's entry for the target exists, and locked,
returned when the entry is absent but the pair's Connection is locked;
with the entry absent and no active lock the call succeeds and writes
the caller's ledger entry. -/
theorem c4_validate_phase (e : Env) (db : FirestoreDB)
    (userId userDailyId favoritedDailyId otherUserId : String)
    (h1 : userId ≠ "") (h2 : userDailyId ≠ "") (h3 : favoritedDailyId ≠ "")
    (h4 : userDailyId ≠ favoritedDailyId)
    (hres : e.resolveDailyId favoritedDailyId = some otherUserId)
    (hself : userId ≠ otherUserId) :
    (callerFavoriteEntry db userId favoritedDailyId ≠ none →
      addFavorite e db ⟨userId, userDailyId, favoritedDailyId⟩ =
        ({ success := false, message := "Already favorited this user" }, db)) ∧
    (callerFavoriteEntry db userId favoritedDailyId = none →
      pairConnectionLocked e db userId otherUserId = true →
      (addFavorite e db ⟨userId, userDailyId, favoritedDailyId⟩).1.success
          = false ∧
      (addFavorite e db ⟨userId, userDailyId, favoritedDailyId⟩).1.isLocked
          = some true ∧
      (addFavorite e db ⟨userId, userDailyId, favoritedDailyId⟩).2 = db) ∧
    (callerFavoriteEntry db userId favoritedDailyId = none →
      pairConnectionLocked e db userId otherUserId = false →
      (addFavorite e db ⟨userId, userDailyId, favoritedDailyId⟩).1.success
          = true ∧
      ∃ uf, mapGet (addFavorite e db
              ⟨userId, userDailyId, favoritedDailyId⟩).2.userFavorites userId
            = some uf ∧
        (mapGet uf.favorites favoritedDailyId).isSome = true) := by
  have hadd : addFavorite e db ⟨userId, userDailyId, favoritedDailyId⟩ =
      addFavoriteTxn e db userId userDailyId favoritedDailyId otherUserId := by
    simp [addFavorite, h1, h2, h3, h4, hres, hself]
  rw [hadd]
  refine ⟨?_, ?_, ?_⟩
  · intro hentry
    unfold addFavoriteTxn
    unfold callerFavoriteEntry at hentry
    cases huf : mapGet db.userFavorites userId with
    | none => rw [huf] at hentry; exact absurd rfl hentry
    | some uf =>
      rw [huf] at hentry
      have : (mapGet uf.favorites favoritedDailyId).isSome = true := by
        cases hx : mapGet uf.favorites favoritedDailyId with
        | none => exact absurd hx hentry
        | some f => rfl
      simp [huf, this]
  · intro hentry hlock
    unfold addFavoriteTxn
    unfold callerFavoriteEntry at hentry
    unfold pairConnectionLocked at hlock
    cases huf : mapGet db.userFavorites userId with
    | none =>
      simp only [huf, Option.getD_none]
      simp [hlock]
    | some uf =>
      rw [huf] at hentry
      have hentry' : mapGet uf.favorites favoritedDailyId = none := hentry
      simp only [huf, Option.getD_some]
      simp [hentry', hlock]
  · intro hentry hlock
    unfold addFavoriteTxn
    unfold callerFavoriteEntry at hentry
    unfold pairConnectionLocked at hlock
    have hforward : ∀ (db1 : FirestoreDB) (written : UserFavorites),
        mapGet db1.userFavorites userId = some written →
        (mapGet written.favorites favoritedDailyId).isSome = true →
        ∀ r : FavoriteActionResult × FirestoreDB,
          r.2.userFavorites = db1.userFavorites →
          ∃ uf, mapGet r.2.userFavorites userId = some uf ∧
            (mapGet uf.favorites favoritedDailyId).isSome = true := by
      intro db1 written hw hfa r hr
      exact ⟨written, by rw [hr]; exact hw, hfa⟩
    cases huf : mapGet db.userFavorites userId with
    | none =>
      simp only [huf, Option.getD_none]
      simp only [mapGet_nil, Option.isSome_none, Bool.false_eq_true, if_false,
        hlock]
      split
      · split
        · constructor
          · rfl
          · exact ⟨_, mapGet_mapSet_self _ _ _, by
              simp [mapGet_mapSet_self]⟩
        · constructor
          · rfl
          · exact ⟨_, mapGet_mapSet_self _ _ _, by
              simp [mapGet_mapSet_self]⟩
      · constructor
        · rfl
        · exact ⟨_, mapGet_mapSet_self _ _ _, by simp [mapGet_mapSet_self]⟩
    | some uf =>
      rw [huf] at hentry
      have hentry' : mapGet uf.favorites favoritedDailyId = none := hentry
      simp only [huf, Option.getD_some]
      simp only [hentry', Option.isSome_none, Bool.false_eq_true, if_false,
        hlock]
      split
      · split
        · constructor
          · rfl
          · exact ⟨_, mapGet_mapSet_self _ _ _, by
              simp [mapGet_mapSet_self]⟩
        · constructor
          · rfl
          · exact ⟨_, mapGet_mapSet_self _ _ _, by
              simp [mapGet_mapSet_self]⟩
      · constructor
        · rfl
        · exact ⟨_, mapGet_mapSet_self _ _ _, by simp [mapGet_mapSet_self]⟩

/-- Witness for C4's amended claim: on an empty store (entry absent, no
lock) the add succeeds and the caller's ledger entry is written. -/
theorem c4_validate_phase_witness :
    (addFavorite wEnv wDbFree ⟨"A", "11111111", "22222222"⟩).1.success = true ∧
    ∃ uf, mapGet (addFavorite wEnv wDbFree
            ⟨"A", "11111111", "22222222"⟩).2.userFavorites "A" = some uf ∧
      (mapGet uf.favorites "22222222").isSome = true :=
  (c4_validate_phase wEnv wDbFree "A" "11111111" "22222222" "B"
    (by decide) (by decide) (by decide) (by decide) (by decide)
    (by decide)).2.2 (by decide) (by decide)

/-- C5: `removeFavorite` never touches the `connections` collection,
and a successful removal rewrites only the caller's own favorites
document, deleting exactly the removed entry. -/
theorem c5_remove_frame (e : Env) (db : FirestoreDB)
    (userId favoritedDailyId : String) :
    (removeFavorite e db userId favoritedDailyId).2.connections
        = db.connections ∧
    ((removeFavorite e db userId favoritedDailyId).1.success = true →
      ∃ uf, mapGet db.userFavorites userId = some uf ∧
        (removeFavorite e db userId favoritedDailyId).2.userFavorites =
          mapSet db.userFavorites userId
            { uf with
              favorites := mapErase uf.favorites favoritedDailyId
              updatedAt := e.now }) := by
  have txn : (removeFavoriteTxn e db userId favoritedDailyId).2.connections
        = db.connections ∧
      ((removeFavoriteTxn e db userId favoritedDailyId).1.success = true →
        ∃ uf, mapGet db.userFavorites userId = some uf ∧
          (removeFavoriteTxn e db userId favoritedDailyId).2.userFavorites =
            mapSet db.userFavorites userId
              { uf with
              favorites := mapErase uf.favorites favoritedDailyId
              updatedAt := e.now }) := by
    unfold removeFavoriteTxn
    cases huf : mapGet db.userFavorites userId with
    | none => exact ⟨rfl, by intro h; simp at h⟩
    | some uf =>
      by_cases hf : (mapGet uf.favorites favoritedDailyId).isSome = true
      · simp only [hf, if_true]
        exact ⟨by trivial, fun _ => ⟨uf, rfl, rfl⟩⟩
      · simp only [hf, Bool.false_eq_true, if_false]
        exact ⟨by trivial, by intro h; simp at h⟩
  constructor
  · unfold removeFavorite
    split
    · rfl
    · split
      · rfl
      · dsimp only
        split
        · rfl
        · exact txn.1
  · unfold removeFavorite
    split
    · intro h; simp at h
    · split
      · intro h; simp at h
      · dsimp only
        split
        · intro h; simp at h
        · exact txn.2

/-- Witness for C5: after the lock expired, `A`'s successful removal
leaves the Connection document untouched and erases only `A`'s
entry. -/
theorem c5_remove_frame_witness :
    (removeFavorite wEnvLate wDbLocked "A" "22222222").2.connections
        = wDbLocked.connections ∧
    ∃ uf, mapGet wDbLocked.userFavorites "A" = some uf ∧
      (removeFavorite wEnvLate wDbLocked "A" "22222222").2.userFavorites =
        mapSet wDbLocked.userFavorites "A"
          { uf with
            favorites := mapErase uf.favorites "22222222"
            updatedAt := wEnvLate.now } :=
  ⟨(c5_remove_frame wEnvLate wDbLocked "A" "22222222").1,
   (c5_remove_frame wEnvLate wDbLocked "A" "22222222").2 (by decide)⟩

/-- C6: `approveStory` fails with the locked message while the story's
`locked` flag is set and `lockExpiresAt` is in the future, leaving the
store unchanged; once now is past `lockExpiresAt` it succeeds and
writes exactly one ApprovedStory whose `expiresAt` is the approval
instant plus a rolling 24 hours, touching no other approved story. -/
theorem c6_approve_lock_guard :
    (∀ (now : Int) (db : StoriesDB) (storyId adminId : String)
        (q : QueuedStory),
      getQueuedStory db storyId = some q →
      q.locked = true → now < q.lockExpiresAt →
      approveStory now db storyId adminId =
        ((false, "Story is still locked. Wait until midnight PKT."), db)) ∧
    (∀ (now : Int) (db : StoriesDB) (storyId adminId : String)
        (q : QueuedStory),
      getQueuedStory db storyId = some q →
      q.lockExpiresAt < now →
      (approveStory now db storyId adminId).1.1 = true ∧
      mapGet (approveStory now db storyId adminId).2.approvedStories storyId =
        some { storyId := storyId, messageText := q.messageText
               approvedAt := now, approvedBy := adminId
               expiresAt := now + dayMs, metadata := q.metadata
               originalQueuedAt := q.queuedAt } ∧
      ∀ k, k ≠ storyId →
        mapGet (approveStory now db storyId adminId).2.approvedStories k =
          mapGet db.approvedStories k) := by
  constructor
  · intro now db storyId adminId q hq hlocked hlt
    simp [approveStory, hq, hlocked, hlt]
  · intro now db storyId adminId q hq hlt
    have hnot : ¬(q.locked ∧ now < q.lockExpiresAt) := by
      rintro ⟨-, h⟩; omega
    simp only [approveStory, hq, if_neg hnot]
    refine ⟨by trivial, ?_, ?_⟩
    · simp [mapGet_mapSet_self, getExpiry24Hours]
    · intro k hk
      exact mapGet_mapSet_ne _ _ _ _ (Ne.symm hk)

/-- Witness for C6: the pending locked story cannot be approved before
its lock expires, and the unlocked story is approved with a 24h
rolling expiry. -/
theorem c6_approve_lock_guard_witness :
    approveStory 1000000000000 wStoriesLocked "s1" "adm" =
      ((false, "Story is still locked. Wait until midnight PKT."),
       wStoriesLocked) ∧
    (approveStory 100 wStoriesRejected "s1" "adm").1.1 = true ∧
    mapGet (approveStory 100 wStoriesRejected "s1" "adm").2.approvedStories
        "s1" =
      some { storyId := "s1", messageText := "hello", approvedAt := 100
             approvedBy := "adm", expiresAt := 100 + dayMs, metadata := wMeta
             originalQueuedAt := 2 } :=
  ⟨c6_approve_lock_guard.1 1000000000000 wStoriesLocked "s1" "adm"
      wQueuedLocked (by decide) rfl (by decide),
   (c6_approve_lock_guard.2 100 wStoriesRejected "s1" "adm" wQueuedRejected
      (by decide) (by decide)).1,
   (c6_approve_lock_guard.2 100 wStoriesRejected "s1" "adm" wQueuedRejected
      (by decide) (by decide)).2.1⟩

/-- C7 counterexample: `approveStory` on a story whose status is
already `rejected` (lock expired) succeeds, flips the status to
`approved`, and creates an ApprovedStory from it — so `rejected` is not
terminal in the code. -/
theorem c7_rejected_not_terminal :
    (mapGet wStoriesRejected.queuedStories "s1").map QueuedStory.status =
      some StoryStatus.rejected ∧
    (approveStory 100 wStoriesRejected "s1" "adm").1.1 = true ∧
    (mapGet (approveStory 100 wStoriesRejected "s1" "adm").2.queuedStories
        "s1").map QueuedStory.status = some StoryStatus.approved ∧
    (mapGet (approveStory 100 wStoriesRejected "s1" "adm").2.approvedStories
        "s1").isSome = true := by
  decide

/-- C7 amended: the review functions never consult the stored status.
`approveStory` succeeds on any existing story whose lock is inactive —
whatever its current status, including `approved` or `rejected` —
setting the status to `approved` and (re)writing the ApprovedStory
copy; `rejectStory` sets any existing story's status to `rejected`.
Only the lock guards approval; neither reviewed state is terminal. -/
theorem c7_review_transitions (now : Int) (db : StoriesDB)
    (storyId adminId : String) (q : QueuedStory) (reason : Option String)
    (hq : mapGet db.queuedStories storyId = some q) :
    (q.locked = false ∨ q.lockExpiresAt ≤ now →
      (approveStory now db storyId adminId).1.1 = true ∧
      (mapGet (approveStory now db storyId adminId).2.queuedStories
          storyId).map QueuedStory.status = some StoryStatus.approved ∧
      (mapGet (approveStory now db storyId adminId).2.approvedStories
          storyId).isSome = true) ∧
    ((rejectStory now db storyId adminId reason).1.1 = true ∧
      (mapGet (rejectStory now db storyId adminId reason).2.queuedStories
          storyId).map QueuedStory.status = some StoryStatus.rejected) := by
  have hq' : getQueuedStory db storyId = some { q with storyId := storyId } := by
    simp [getQueuedStory, hq]
  constructor
  · intro hunlocked
    have hnot : ¬(({ q with storyId := storyId } : QueuedStory).locked ∧
        now < ({ q with storyId := storyId } : QueuedStory).lockExpiresAt) := by
      rcases hunlocked with h | h
      · rintro ⟨hl, -⟩
        simp only [h] at hl
        exact Bool.false_ne_true hl
      · rintro ⟨-, hl⟩
        simp only at hl
        omega
    simp only [approveStory, hq', if_neg hnot]
    refine ⟨by trivial, ?_, ?_⟩
    · simp [mapGet_mapSet_self]
    · simp [mapGet_mapSet_self]
  · simp only [rejectStory, hq]
    exact ⟨by trivial, by simp [mapGet_mapSet_self]⟩

/-- Witness for C7's amended claim, at the already-rejected story. -/
theorem c7_review_transitions_witness :
    ((approveStory 100 wStoriesRejected "s1" "adm").1.1 = true ∧
      (mapGet (approveStory 100 wStoriesRejected "s1" "adm").2.queuedStories
          "s1").map QueuedStory.status = some StoryStatus.approved ∧
      (mapGet (approveStory 100 wStoriesRejected "s1" "adm").2.approvedStories
          "s1").isSome = true) ∧
    ((rejectStory 100 wStoriesRejected "s1" "adm" none).1.1 = true ∧
      (mapGet (rejectStory 100 wStoriesRejected "s1" "adm"
          none).2.queuedStories "s1").map QueuedStory.status =
        some StoryStatus.rejected) :=
  ⟨(c7_review_transitions 100 wStoriesRejected "s1" "adm" wQueuedRejected
      none (by decide)).1 (Or.inl rfl),
   (c7_review_transitions 100 wStoriesRejected "s1" "adm" wQueuedRejected
      none (by decide)).2⟩

/-- C8: an `addFavorite` call that re-establishes mutual state on an
existing Connection returns success, the mutual flag, the lock expiry
and the token — but no streak count: the result's `streakCount` is
absent (the TS result interface has no such field and no return site
sets one, while the post-transaction notification code reads it). -/
theorem c8_result_omits_streak_count :
    (addFavorite wEnv wDbMutualReady ⟨"A", "11111111", "22222222"⟩).1.success
        = true ∧
    (addFavorite wEnv wDbMutualReady
        ⟨"A", "11111111", "22222222"⟩).1.mutualConnection = some true ∧
    (addFavorite wEnv wDbMutualReady
        ⟨"A", "11111111", "22222222"⟩).1.isLocked = some true ∧
    (addFavorite wEnv wDbMutualReady
        ⟨"A", "11111111", "22222222"⟩).1.lockExpiresAt
        = some (nextMidnightPKT wEnv.now) ∧
    (addFavorite wEnv wDbMutualReady
        ⟨"A", "11111111", "22222222"⟩).1.connectionToken = some "T" ∧
    (addFavorite wEnv wDbMutualReady
        ⟨"A", "11111111", "22222222"⟩).1.streakCount = none := by
  decide

/-- C9: when the target daily id resolves to the caller's own stable
user id — even though the two daily-id strings differ — `addFavorite`
fails with the self-favorite rejection before the transaction, and the
store is returned unchanged. -/
theorem c9_self_favorite_by_uid (e : Env) (db : FirestoreDB)
    (userId userDailyId favoritedDailyId : String)
    (h1 : userId ≠ "") (h2 : userDailyId ≠ "") (h3 : favoritedDailyId ≠ "")
    (h4 : userDailyId ≠ favoritedDailyId)
    (hres : e.resolveDailyId favoritedDailyId = some userId) :
    addFavorite e db ⟨userId, userDailyId, favoritedDailyId⟩ =
      ({ success := false, message := "Cannot favorite yourself" }, db) := by
  simp [addFavorite, h1, h2, h3, h4, hres]

/-- Witness for C9: `22222222` resolves to the caller `A` itself. -/
theorem c9_self_favorite_by_uid_witness :
    addFavorite wEnvSelf wDbLocked ⟨"A", "11111111", "22222222"⟩ =
      ({ success := false, message := "Cannot favorite yourself" },
       wDbLocked) :=
  c9_self_favorite_by_uid wEnvSelf wDbLocked "A" "11111111" "22222222"
    (by decide) (by decide) (by decide) (by decide) (by decide)

/-- C10: a streak update writes back the existing Connection with
`connectionToken`, `createdAt` and `userIds` unchanged, rewriting only
`lastMutualFavoriteAt`, `streakCount`, `isLocked`, `lockExpiresAt`,
`lastStreakDate` and `status`; the token in the returned record is the
existing connection's token, and no other document is touched. -/
theorem c10_streak_update_frame (e : Env) (u1 u2 : String) (c : Connection)
    (db : FirestoreDB) :
    (updateConnectionStreak e u1 u2 c db).1.connectionToken
        = c.connectionToken ∧
    ∃ c', mapGet (updateConnectionStreak e u1 u2 c db).2.connections
            (generateConnectionId u1 u2) = some c' ∧
      c'.connectionToken = c.connectionToken ∧
      c'.createdAt = c.createdAt ∧
      c'.userIds = c.userIds ∧
      c'.lastMutualFavoriteAt = e.now ∧
      c'.streakCount = (updateConnectionStreak e u1 u2 c db).1.streakCount ∧
      c'.isLocked = true ∧
      c'.lockExpiresAt = some (nextMidnightPKT e.now) ∧
      c'.lastStreakDate = dayKeyPKT e.now ∧
      c'.status = ConnStatus.active ∧
      (updateConnectionStreak e u1 u2 c db).2.connections =
        mapSet db.connections (generateConnectionId u1 u2) c' ∧
      (updateConnectionStreak e u1 u2 c db).2.userFavorites
        = db.userFavorites := by
  unfold updateConnectionStreak
  exact ⟨rfl, _, mapGet_mapSet_self _ _ _, rfl, rfl, rfl, rfl, rfl, rfl, rfl,
    rfl, rfl, rfl, rfl⟩

end GhostMate
